import Mathlib

/-!
Shallow embedding of the Event-Management application's backend handlers,
for checking the specification's claims about the booking/payment flow.

Embedded from the source:
- src/backend/controllers/bookingController.js
  (bookEvent, adminUpdateBooking, adminDeleteBooking)
- src/unnamed/part_000  (admin controller: deleteUser)
- src/unnamed/part_001  (payment controller: createOrder, verifyPayment,
  handleWebhook)

Conventions of the embedding:
- An Express handler is a pure function from its request fields and the
  relevant store to a response record and the updated store.
- Request body fields that JavaScript destructuring can leave undefined are
  Option-typed; JavaScript truthiness of a string is "present and
  non-empty", of a number "present and non-zero".
- The Mongoose models directory is not part of the sources, so record
  types for the stored documents carry exactly the fields the controllers
  read or write.
- HMAC-SHA256 is an opaque keyed function; every embedded handler is
  parametric in it, since the source only ever compares its output for
  string equality.
-/

namespace EventApp

/-- JavaScript truthiness of a possibly-undefined string field:
undefined and the empty string are falsy. -/
def strTruthy : Option String → Bool
  | none => false
  | some s => !s.isEmpty

/-- JavaScript truthiness of a possibly-undefined number field:
undefined and 0 are falsy (negative numbers are truthy). -/
def intTruthy : Option Int → Bool
  | none => false
  | some n => n != 0

/-! ## Booking controller (src/backend/controllers/bookingController.js) -/

/-- A stored Booking document, with the fields the controllers read or
write: bookingController.js creates it from a user id and an event id and
adminUpdateBooking writes its status field. The Mongoose schema file
(models/Booking.js) is not among the sources; the status default "booked"
is taken from adminUpdateBooking's status whitelist, and no claim below
depends on that default. -/
structure MBooking where
  id : String
  user : String
  event : String
  status : String
  deriving DecidableEq, Repr

/-- A stored Event document; the booking controller only tests existence
by id. -/
structure MEvent where
  id : String
  deriving DecidableEq, Repr

/-- A stored User document; the admin controller only reads its id. -/
structure MUser where
  id : String
  deriving DecidableEq, Repr

/-- Response shape shared by the booking/admin handlers: HTTP status,
the success flag, and the message field when one is sent. -/
structure BResp where
  status : Nat
  success : Bool
  message : Option String
  deriving DecidableEq, Repr

/-- Model.findById / findOne on an id-keyed collection. -/
def findBooking (store : List MBooking) (i : String) : Option MBooking :=
  store.find? fun b => b.id = i

/-- Event.findById. -/
def findEvent (events : List MEvent) (i : String) : Option MEvent :=
  events.find? fun e => e.id = i

/-- User.findById. -/
def findUser (users : List MUser) (i : String) : Option MUser :=
  users.find? fun u => u.id = i

/-- Booking.findOne with a user/event filter, as a Bool (the controller
only branches on existence). -/
def hasBookingFor (store : List MBooking) (u e : String) : Bool :=
  store.any fun b => b.user = u && b.event = e

/-- bookEvent (bookingController.js lines 5-47): 404 when the event does
not exist; 400 when this user already booked this event; otherwise create
the booking and answer 201. The fresh document id is an input (Mongo
assigns it). -/
def bookEvent (userId eventId : String) (events : List MEvent)
    (store : List MBooking) (newId : String) : BResp × List MBooking :=
  match findEvent events eventId with
  | none => (⟨404, false, some "Event not found"⟩, store)
  | some _ =>
    if hasBookingFor store userId eventId then
      (⟨400, false, some "You already booked this event"⟩, store)
    else
      (⟨201, true, none⟩, store ++ [⟨newId, userId, eventId, "booked"⟩])

/-- The status whitelist of adminUpdateBooking (bookingController.js
line 75). -/
def validStatuses : List String := ["booked", "cancelled", "confirmed", "attended"]

/-- In-place status write: booking.status = status followed by
booking.save() on the document found by id. -/
def setStatusById (store : List MBooking) (i s : String) : List MBooking :=
  match store with
  | [] => []
  | b :: rest =>
    if b.id = i then { b with status := s } :: rest
    else b :: setStatusById rest i s

/-- adminUpdateBooking (bookingController.js lines 69-114): a truthy
status outside the whitelist is answered 400; an unknown booking id 404;
otherwise a truthy status is written directly onto the document
(booking.status = status; booking.save()) with no look at the current
state, and the handler answers 200. A falsy status skips both the
whitelist check and the write. -/
def adminUpdateBooking (i : String) (st : Option String)
    (store : List MBooking) : BResp × List MBooking :=
  if strTruthy st && !(validStatuses.contains (st.getD "")) then
    (⟨400, false,
      some ("Invalid status. Valid statuses are: " ++ String.intercalate ", " validStatuses)⟩,
     store)
  else
    match findBooking store i with
    | none => (⟨404, false, some "Booking not found"⟩, store)
    | some _ =>
      if strTruthy st then
        (⟨200, true, some "Booking updated successfully"⟩, setStatusById store i (st.getD ""))
      else
        (⟨200, true, some "Booking updated successfully"⟩, store)

/-- booking.deleteOne(): remove the document found by id. -/
def removeById (store : List MBooking) (i : String) : List MBooking :=
  match store with
  | [] => []
  | b :: rest => if b.id = i then rest else b :: removeById rest i

/-- adminDeleteBooking (bookingController.js lines 117-143): an unknown id
is answered 404; otherwise the booking document is deleted from the store
unconditionally, whatever its status, and the handler answers 200. -/
def adminDeleteBooking (i : String) (store : List MBooking) : BResp × List MBooking :=
  match findBooking store i with
  | none => (⟨404, false, some "Booking not found"⟩, store)
  | some _ => (⟨200, true, some "Booking deleted successfully"⟩, removeById store i)

/-! ## Admin controller (src/unnamed/part_000) -/

/-- user.deleteOne(): remove the user document found by id. -/
def removeUserById (users : List MUser) (i : String) : List MUser :=
  match users with
  | [] => []
  | u :: rest => if u.id = i then rest else u :: removeUserById rest i

/-- deleteUser (part_000 lines 153-185): an unknown target id is answered
404; a target whose id equals the requesting admin's id is answered 400
with no deletion (the self-deletion guard on lines 165-170); otherwise
the user document is deleted and the handler answers 200. -/
def deleteUser (targetId requesterId : String) (users : List MUser) : BResp × List MUser :=
  match findUser users targetId with
  | none => (⟨404, false, some "User not found"⟩, users)
  | some u =>
    if u.id = requesterId then
      (⟨400, false, some "You cannot delete your own account"⟩, users)
    else
      (⟨200, true, some "User deleted successfully"⟩, removeUserById users u.id)

/-! ## Payment controller (src/unnamed/part_001) -/

/-- Request body of createOrder, as destructured on part_001 line 25. A
body may also carry an idempotency key; the handler never reads it, and
carrying it in the record makes that visible. -/
structure CreateOrderReq where
  eventId : Option String
  ticketCount : Option Int
  amount : Option Int
  currency : Option String
  idempotencyKey : Option String
  deriving DecidableEq, Repr

/-- A gateway order as razorpay.orders.create returns it: the gateway
assigns a fresh id; amount is in paise. Amounts are modelled as integral
rupees, so Math.round(amount * 100) is exactly amount * 100. -/
structure GOrder where
  id : String
  amount : Int
  currency : String
  receipt : String
  deriving DecidableEq, Repr

/-- The external gateway's ledger, the one store createOrder writes:
order creation appends a fresh order. -/
structure GatewayState where
  orders : List GOrder
  deriving DecidableEq, Repr

/-- The nondeterministic inputs of one createOrder call: Date.now() and
the Math.random suffix used for the fabricated booking id. -/
structure Env where
  now : Nat
  rand : String
  deriving DecidableEq, Repr

/-- Response of createOrder: on 200 it carries the gateway order id, the
amount converted back to rupees, and the fabricated booking id. -/
structure CreateOrderResp where
  status : Nat
  success : Bool
  message : Option String
  orderId : Option String
  orderAmount : Option Int
  bookingId : Option String
  deriving DecidableEq, Repr

/-- createOrder (part_001 lines 23-81): reject with one 400 message when
eventId, ticketCount or amount is falsy; otherwise ask the gateway for an
order over amount * 100 paise and fabricate
bookingId = "booking_" + Date.now() + "_" + random suffix. The commented
TODO block (Booking.create with status pending) is not executed, so no
booking is persisted anywhere; the handler also performs no event or user
lookup and never reads an idempotency key. The fresh gateway order id is
modelled as a function of how many orders the gateway has. -/
def createOrder (req : CreateOrderReq) (env : Env) (g : GatewayState) :
    CreateOrderResp × GatewayState :=
  if !(strTruthy req.eventId) || !(intTruthy req.ticketCount) || !(intTruthy req.amount) then
    (⟨400, false, some "Missing required fields: eventId, ticketCount, amount",
      none, none, none⟩, g)
  else
    let amt : Int := (req.amount.getD 0) * 100
    let oid : String := "order_" ++ toString g.orders.length
    let order : GOrder :=
      ⟨oid, amt, req.currency.getD "INR",
       "booking_" ++ req.eventId.getD "" ++ "_" ++ toString env.now⟩
    (⟨200, true, none, some oid, some (amt / 100),
      some ("booking_" ++ toString env.now ++ "_" ++ env.rand)⟩,
     ⟨g.orders ++ [order]⟩)

/-- Request body of verifyPayment, as destructured on part_001
lines 89-94. -/
structure VerifyReq where
  razorpay_order_id : Option String
  razorpay_payment_id : Option String
  razorpay_signature : Option String
  bookingId : Option String
  deriving DecidableEq, Repr

/-- Response of verifyPayment: on 200 it echoes the booking id and the
payment id. -/
structure VerifyResp where
  status : Nat
  success : Bool
  message : Option String
  bookingId : Option String
  paymentId : Option String
  deriving DecidableEq, Repr

/-- The fixed 400 response of verifyPayment to any signature mismatch
(part_001 lines 113-118): one constant, whatever made the signature
wrong. -/
def invalidSignatureResp : VerifyResp :=
  ⟨400, false, some "Payment verification failed - Invalid signature", none, none⟩

/-- verifyPayment (part_001 lines 87-142): reject 400 when any of the
three razorpay fields is falsy; recompute
HMAC-SHA256(secret, order_id + "|" + payment_id) and reject 400 on
mismatch; on match answer 200. The booking store — of any type, passed
through to make this visible — is never read or written: the handler
consults no booking, checks no hold expiry, and the commented TODO block
(Booking.findByIdAndUpdate to confirmed) is not executed. -/
def verifyPayment {σ : Type} (hmac : String → String → String) (secret : String)
    (req : VerifyReq) (store : σ) : VerifyResp × σ :=
  if !(strTruthy req.razorpay_order_id) || !(strTruthy req.razorpay_payment_id)
      || !(strTruthy req.razorpay_signature) then
    (⟨400, false, some "Missing payment verification data", none, none⟩, store)
  else
    let body := req.razorpay_order_id.getD "" ++ "|" ++ req.razorpay_payment_id.getD ""
    let expected := hmac secret body
    if req.razorpay_signature = some expected then
      (⟨200, true, some "Payment verified successfully", req.bookingId,
        req.razorpay_payment_id⟩, store)
    else
      (invalidSignatureResp, store)

/-- Webhook request body: the handler reads req.body.event and the payload
entity id (only to log them). A gateway event id may ride along in the
body or headers; the handler never reads one. -/
structure WebhookReq where
  event : String
  payloadEntityId : String
  gatewayEventId : Option String
  deriving DecidableEq, Repr

/-- Response of handleWebhook. -/
structure WebhookResp where
  status : Nat
  success : Bool
  received : Bool
  message : Option String
  deriving DecidableEq, Repr

/-- The 200 acknowledgement of handleWebhook (part_001 line 216). -/
def webhookAck : WebhookResp := ⟨200, true, true, none⟩

/-- handleWebhook (part_001 lines 173-222): recompute
HMAC-SHA256(webhook secret, JSON.stringify(req.body)) — the
serialization is a parameter — and reject 400 when the
x-razorpay-signature header (absent included) differs; otherwise switch
on the event type, where every branch (payment.captured, payment.failed,
refund.created, default) only logs and every persistence TODO is
commented out, and acknowledge 200. No webhook event is stored, no
processedAt exists, and the booking store σ is untouched on every path. -/
def handleWebhook {σ : Type} (hmac : String → String → String)
    (serialize : WebhookReq → String) (secret : String)
    (headerSig : Option String) (req : WebhookReq) (store : σ) :
    WebhookResp × σ :=
  let expected := hmac secret (serialize req)
  if headerSig = some expected then (webhookAck, store)
  else (⟨400, false, false, some "Invalid signature"⟩, store)

/-- N deliveries of one webhook request in sequence, collecting the
responses; the store threads through. -/
def deliverTimes {σ : Type} (hmac : String → String → String)
    (serialize : WebhookReq → String) (secret : String)
    (headerSig : Option String) (req : WebhookReq) :
    Nat → σ → List WebhookResp × σ
  | 0, store => ([], store)
  | n + 1, store =>
    let r := handleWebhook hmac serialize secret headerSig req store
    let rest := deliverTimes hmac serialize secret headerSig req n r.2
    (r.1 :: rest.1, rest.2)

/-- Modelled from the spec: the Booking record of spec section 3 with the
fields the payment claims mention (state, gateway ids, hold expiry). The
repository's payment flow persists no booking (the Mongoose schema and
every write are absent from the sources), so this record only furnishes
concrete stores to pass through the handlers above, which ignore them. -/
structure SBooking where
  bookingId : String
  state : String
  gatewayOrderId : Option String
  gatewayPaymentId : Option String
  holdExpiresAt : Nat
  deriving DecidableEq, Repr

/-- A concrete stand-in for HMAC-SHA256 used only to instantiate closed
counterexamples and witnesses; every theorem below is parametric in the
hmac function, since the source only compares its output for equality. -/
def demoHmac (key msg : String) : String := "hmac[" ++ key ++ "](" ++ msg ++ ")"

end EventApp

namespace EventApp

/-! ## Helper lemmas -/

/-- Every element of the store after a status write is either an original
element or carries the written status. -/
theorem mem_setStatusById {store : List MBooking} {i s : String} {c : MBooking}
    (h : c ∈ setStatusById store i s) : c ∈ store ∨ c.status = s := by
  induction store with
  | nil => simp [setStatusById] at h
  | cons b rest ih =>
    by_cases hb : b.id = i
    · simp [setStatusById, hb] at h
      rcases h with h | h
      · right; rw [h]
      · left; exact List.mem_cons_of_mem _ h
    · simp [setStatusById, hb] at h
      rcases h with h | h
      · left; simp [h]
      · rcases ih h with h2 | h2
        · left; exact List.mem_cons_of_mem _ h2
        · right; exact h2

/-- A status write finds the booking again, with the written status and
all other fields intact. -/
theorem findBooking_setStatusById {store : List MBooking} {i s : String} {b : MBooking}
    (h : findBooking store i = some b) :
    findBooking (setStatusById store i s) i = some { b with status := s } := by
  induction store with
  | nil => simp [findBooking] at h
  | cons c rest ih =>
    by_cases hc : c.id = i
    · simp [findBooking, List.find?, hc] at h
      subst h
      simp [setStatusById, hc, findBooking, List.find?]
    · simp [findBooking, List.find?, hc] at h ⊢
      simp [setStatusById, hc, findBooking, List.find?]
      exact ih h

/-- Deleting a booking that is present shortens the store by exactly
one. -/
theorem removeById_length {store : List MBooking} {i : String}
    (h : ∃ x ∈ store, x.id = i) :
    (removeById store i).length + 1 = store.length := by
  induction store with
  | nil => simp at h
  | cons b rest ih =>
    by_cases hb : b.id = i
    · simp [removeById, hb]
    · simp [removeById, hb]
      apply ih
      rcases h with ⟨x, hx, hxi⟩
      rcases List.mem_cons.mp hx with hx | hx
      · exact absurd (hx ▸ hxi) hb
      · exact ⟨x, hx, hxi⟩

/-! ## Claims about the booking and admin controllers -/

/-- C2 counterexample. In the state machine of spec section 4.3,
cancelled is terminal: it has no outgoing edge. adminUpdateBooking applied
to a cancelled booking with status confirmed nevertheless answers 200 and
writes confirmed, so the written state sequence cancelled, confirmed is
not a path through the graph and transitions are not monotonic. -/
theorem adminUpdateBooking_offgraph_cex :
    adminUpdateBooking "B1" (some "confirmed") [⟨"B1", "U1", "E1", "cancelled"⟩]
      = (⟨200, true, some "Booking updated successfully"⟩,
         [⟨"B1", "U1", "E1", "confirmed"⟩]) := by
  decide

/-- C2 amended: adminUpdateBooking writes any whitelisted status
(booked, cancelled, confirmed, attended) onto a found booking
unconditionally, without looking at the current state, and answers 200;
the only states it can write are whitelist members, so it never writes
pending (or refunded), which are outside the whitelist. -/
theorem adminUpdateBooking_unrestricted (i s : String) (store : List MBooking)
    (b : MBooking) (hs : s ∈ validStatuses) (hf : findBooking store i = some b) :
    adminUpdateBooking i (some s) store
      = (⟨200, true, some "Booking updated successfully"⟩, setStatusById store i s)
    ∧ findBooking (setStatusById store i s) i = some { b with status := s }
    ∧ ∀ c ∈ setStatusById store i s, c ∈ store ∨ c.status = s := by
  simp only [validStatuses, List.mem_cons, List.not_mem_nil, or_false] at hs
  have hst : strTruthy (some s) = true := by
    rcases hs with rfl | rfl | rfl | rfl <;> decide
  have hcon : validStatuses.contains s = true := by
    rcases hs with rfl | rfl | rfl | rfl <;> decide
  have hmem : s ∈ validStatuses := by
    rcases hs with rfl | rfl | rfl | rfl <;> decide
  refine ⟨?_, findBooking_setStatusById hf, fun c hc => mem_setStatusById hc⟩
  simp [adminUpdateBooking, hst, hcon, hf, hmem]

/-- C2 witness: the amended theorem applied to a concrete store holding a
cancelled booking, overwritten to confirmed. -/
theorem adminUpdateBooking_unrestricted_witness :
    adminUpdateBooking "B1" (some "confirmed") [⟨"B1", "U1", "E1", "cancelled"⟩]
      = (⟨200, true, some "Booking updated successfully"⟩,
         setStatusById [⟨"B1", "U1", "E1", "cancelled"⟩] "B1" "confirmed") :=
  (adminUpdateBooking_unrestricted "B1" "confirmed"
    [⟨"B1", "U1", "E1", "cancelled"⟩] ⟨"B1", "U1", "E1", "cancelled"⟩
    (by decide) (by decide)).1

/-- C8 counterexample: a booking in the terminal state cancelled is
hard-deleted by adminDeleteBooking — afterwards the store is empty, so
the booking is not retained for audit or refund history. -/
theorem adminDeleteBooking_hard_delete_cex :
    adminDeleteBooking "B1" [⟨"B1", "U1", "E1", "cancelled"⟩]
      = (⟨200, true, some "Booking deleted successfully"⟩, []) := by
  decide

/-- C8 amended: adminDeleteBooking hard-deletes: on any found booking,
whatever its state, it answers 200 and removes the document, leaving the
store one element shorter (adminUpdateBooking likewise mutates the status
field by direct write, not through any transition function). -/
theorem adminDeleteBooking_removes (i : String) (store : List MBooking)
    (h : (findBooking store i).isSome = true) :
    adminDeleteBooking i store
      = (⟨200, true, some "Booking deleted successfully"⟩, removeById store i)
    ∧ (removeById store i).length + 1 = store.length := by
  obtain ⟨b, hb⟩ := Option.isSome_iff_exists.mp h
  have hex : ∃ x ∈ store, x.id = i := by
    have := List.find?_some (by simpa [findBooking] using hb)
    exact ⟨b, List.mem_of_find?_eq_some (by simpa [findBooking] using hb), by simpa using this⟩
  exact ⟨by simp [adminDeleteBooking, hb], removeById_length hex⟩

/-- C8 witness: the amended theorem applied to a one-booking store. -/
theorem adminDeleteBooking_removes_witness :
    adminDeleteBooking "B1" [⟨"B1", "U1", "E1", "confirmed"⟩]
      = (⟨200, true, some "Booking deleted successfully"⟩,
         removeById [⟨"B1", "U1", "E1", "confirmed"⟩] "B1")
    ∧ (removeById [⟨"B1", "U1", "E1", "confirmed"⟩] "B1").length + 1
        = [(⟨"B1", "U1", "E1", "confirmed"⟩ : MBooking)].length :=
  adminDeleteBooking_removes "B1" [⟨"B1", "U1", "E1", "confirmed"⟩] (by decide)

/-- C9: on an existing event, bookEvent answers 400 with
success false and the message "You already booked this event" and leaves
the store unchanged when this user already booked this event; otherwise
it appends exactly one booking and answers 201; either way a user/event
pair booked at most once stays booked at most once. -/
theorem bookEvent_at_most_one (u e : String) (events : List MEvent)
    (store : List MBooking) (nid : String) (ev : MEvent)
    (hev : findEvent events e = some ev) :
    (hasBookingFor store u e = true →
      bookEvent u e events store nid
        = (⟨400, false, some "You already booked this event"⟩, store))
    ∧ (hasBookingFor store u e = false →
      bookEvent u e events store nid
        = (⟨201, true, none⟩, store ++ [⟨nid, u, e, "booked"⟩]))
    ∧ (bookEvent u e events store nid).2.countP (fun b => b.user = u && b.event = e)
        ≤ max 1 (store.countP fun b => b.user = u && b.event = e) := by
  refine ⟨fun h => by simp [bookEvent, hev, h], fun h => by simp [bookEvent, hev, h], ?_⟩
  cases h : hasBookingFor store u e with
  | true =>
    have hrw : bookEvent u e events store nid
        = (⟨400, false, some "You already booked this event"⟩, store) := by
      simp [bookEvent, hev, h]
    rw [hrw]
    exact le_max_right _ _
  | false =>
    have hany : store.any (fun b => b.user = u && b.event = e) = false := by
      simpa [hasBookingFor] using h
    have hz : store.countP (fun b => b.user = u && b.event = e) = 0 := by
      have := List.any_eq_false.mp hany
      exact List.countP_eq_zero.mpr fun a ha => by simpa using this a ha
    have hrw : bookEvent u e events store nid
        = (⟨201, true, none⟩, store ++ [⟨nid, u, e, "booked"⟩]) := by
      simp [bookEvent, hev, h]
    rw [hrw]
    simp [List.countP_append, hz, List.countP_cons]

/-- C9 witness: the theorem applied to a concrete store, exercising both
the duplicate branch and the fresh branch. -/
theorem bookEvent_at_most_one_witness :
    bookEvent "U1" "E1" [⟨"E1"⟩] [⟨"B0", "U1", "E1", "booked"⟩] "B1"
      = (⟨400, false, some "You already booked this event"⟩,
         [⟨"B0", "U1", "E1", "booked"⟩])
    ∧ bookEvent "U2" "E1" [⟨"E1"⟩] [⟨"B0", "U1", "E1", "booked"⟩] "B1"
      = (⟨201, true, none⟩,
         [⟨"B0", "U1", "E1", "booked"⟩] ++ [⟨"B1", "U2", "E1", "booked"⟩]) :=
  ⟨(bookEvent_at_most_one "U1" "E1" [⟨"E1"⟩] [⟨"B0", "U1", "E1", "booked"⟩]
      "B1" ⟨"E1"⟩ (by decide)).1 (by decide),
   ((bookEvent_at_most_one "U2" "E1" [⟨"E1"⟩] [⟨"B0", "U1", "E1", "booked"⟩]
      "B1" ⟨"E1"⟩ (by decide)).2).1 (by decide)⟩

/-- C10: deleteUser refuses self-deletion: when the target id resolves to
a user and equals the requesting admin's id, the handler answers 400 with
success false and the user store is returned unchanged. -/
theorem deleteUser_self_rejected (tid rid : String) (users : List MUser)
    (hfound : (findUser users tid).isSome = true) (hself : tid = rid) :
    deleteUser tid rid users
      = (⟨400, false, some "You cannot delete your own account"⟩, users) := by
  subst hself
  obtain ⟨u, hu⟩ := Option.isSome_iff_exists.mp hfound
  have hid : u.id = tid := by
    have := List.find?_some (by simpa [findUser] using hu)
    simpa using this
  simp [deleteUser, hu, hid]

/-- C10 witness: the theorem applied to a concrete one-admin store. -/
theorem deleteUser_self_rejected_witness :
    deleteUser "A1" "A1" [⟨"A1"⟩]
      = (⟨400, false, some "You cannot delete your own account"⟩, [⟨"A1"⟩]) :=
  deleteUser_self_rejected "A1" "A1" [⟨"A1"⟩] (by decide) rfl

/-! ## Claims about the payment controller -/

/-- C1 counterexample: two createOrder calls sharing the idempotency key
K1 (at times 1000 and 2000) each create a gateway order — two orders
after the second call — and return distinct booking ids, refuting
"exactly one Booking, same bookingId, no second gateway order". -/
theorem createOrder_duplicate_call_cex :
    (createOrder ⟨some "E1", some 2, some 200, none, some "K1"⟩ ⟨1000, "aaa"⟩
        ⟨[]⟩).1.bookingId = some "booking_1000_aaa"
    ∧ (createOrder ⟨some "E1", some 2, some 200, none, some "K1"⟩ ⟨2000, "bbb"⟩
        (createOrder ⟨some "E1", some 2, some 200, none, some "K1"⟩ ⟨1000, "aaa"⟩
          ⟨[]⟩).2).1.bookingId = some "booking_2000_bbb"
    ∧ (createOrder ⟨some "E1", some 2, some 200, none, some "K1"⟩ ⟨1000, "aaa"⟩
        ⟨[]⟩).1.bookingId
      ≠ (createOrder ⟨some "E1", some 2, some 200, none, some "K1"⟩ ⟨2000, "bbb"⟩
          (createOrder ⟨some "E1", some 2, some 200, none, some "K1"⟩ ⟨1000, "aaa"⟩
            ⟨[]⟩).2).1.bookingId
    ∧ (createOrder ⟨some "E1", some 2, some 200, none, some "K1"⟩ ⟨2000, "bbb"⟩
        (createOrder ⟨some "E1", some 2, some 200, none, some "K1"⟩ ⟨1000, "aaa"⟩
          ⟨[]⟩).2).2.orders.length = 2 := by
  refine ⟨rfl, rfl, by decide, rfl⟩

/-- C1 amended: createOrder has no idempotency: the idempotency key field
of the body is ignored (any two keys give identical results), and every
call passing field validation creates exactly one new gateway order and
fabricates its booking id from the call time and random suffix, so
repeated calls yield ever more orders and time-dependent booking ids. -/
theorem createOrder_no_idempotency (req : CreateOrderReq) (env : Env)
    (g : GatewayState) (k : Option String)
    (h1 : strTruthy req.eventId = true) (h2 : intTruthy req.ticketCount = true)
    (h3 : intTruthy req.amount = true) :
    createOrder { req with idempotencyKey := k } env g = createOrder req env g
    ∧ (createOrder req env g).2.orders.length = g.orders.length + 1
    ∧ (createOrder req env g).1.bookingId
        = some ("booking_" ++ toString env.now ++ "_" ++ env.rand) := by
  obtain ⟨e, t, a, c, ik⟩ := req
  simp at h1 h2 h3
  refine ⟨rfl, ?_, ?_⟩ <;> simp [createOrder, h1, h2, h3]

/-- C1 witness: the amended theorem at a concrete request, key swapped
from K1 to K2. -/
theorem createOrder_no_idempotency_witness :
    createOrder ⟨some "E1", some 2, some 200, none, some "K2"⟩ ⟨5, "zz"⟩ ⟨[]⟩
      = createOrder ⟨some "E1", some 2, some 200, none, some "K1"⟩ ⟨5, "zz"⟩ ⟨[]⟩
    ∧ (createOrder ⟨some "E1", some 2, some 200, none, some "K1"⟩ ⟨5, "zz"⟩
        ⟨[]⟩).2.orders.length = ([] : List GOrder).length + 1 :=
  ⟨(createOrder_no_idempotency ⟨some "E1", some 2, some 200, none, some "K1"⟩
      ⟨5, "zz"⟩ ⟨[]⟩ (some "K2") rfl rfl rfl).1,
   (createOrder_no_idempotency ⟨some "E1", some 2, some 200, none, some "K1"⟩
      ⟨5, "zz"⟩ ⟨[]⟩ none rfl rfl rfl).2.1⟩

/-- C7 counterexample: a request with ticketCount -1 and amount -5 passes
validation (only falsiness is checked), answers 200 success, and creates
a gateway order over -500 paise; no InvalidArgument rejection of
non-positive values exists, and no event or user lookup happens (the
handler takes no event or user store at all). -/
theorem createOrder_negative_accepted_cex :
    createOrder ⟨some "EV-404", some (-1), some (-5), none, none⟩ ⟨1000, "aaa"⟩ ⟨[]⟩
      = (⟨200, true, none, some "order_0", some (-5), some "booking_1000_aaa"⟩,
         ⟨[⟨"order_0", -500, "INR", "booking_EV-404_1000"⟩]⟩) := by
  rfl

/-- C7 amended: createOrder's only guard is JavaScript truthiness of
eventId, ticketCount and amount — one 400 message for any falsy field
(zero or missing), with the gateway untouched — and every call passing it
answers 200 success and creates exactly one gateway order; there is no
event/user existence check (no 404 path) and negative values are
accepted. -/
theorem createOrder_validation_only_truthy (req : CreateOrderReq) (env : Env)
    (g : GatewayState) :
    ((strTruthy req.eventId && intTruthy req.ticketCount && intTruthy req.amount) = false →
      createOrder req env g
        = (⟨400, false, some "Missing required fields: eventId, ticketCount, amount",
            none, none, none⟩, g))
    ∧ ((strTruthy req.eventId && intTruthy req.ticketCount && intTruthy req.amount) = true →
      (createOrder req env g).1.status = 200
      ∧ (createOrder req env g).1.success = true
      ∧ (createOrder req env g).2.orders.length = g.orders.length + 1) := by
  cases hA : strTruthy req.eventId <;> cases hB : intTruthy req.ticketCount <;>
    cases hC : intTruthy req.amount <;> simp [createOrder, hA, hB, hC]

/-- C7 witness: the amended theorem at concrete requests — a zero
ticketCount is rejected with the one 400 message, a valid request is
answered 200. -/
theorem createOrder_validation_only_truthy_witness :
    createOrder ⟨some "E1", some 0, some 200, none, none⟩ ⟨1, "r"⟩ ⟨[]⟩
      = (⟨400, false, some "Missing required fields: eventId, ticketCount, amount",
          none, none, none⟩, ⟨[]⟩)
    ∧ (createOrder ⟨some "E1", some 2, some 200, none, none⟩ ⟨1, "r"⟩ ⟨[]⟩).1.status
        = 200 :=
  ⟨(createOrder_validation_only_truthy ⟨some "E1", some 0, some 200, none, none⟩
      ⟨1, "r"⟩ ⟨[]⟩).1 rfl,
   ((createOrder_validation_only_truthy ⟨some "E1", some 2, some 200, none, none⟩
      ⟨1, "r"⟩ ⟨[]⟩).2 rfl).1⟩

/-- C3 counterexample: a pending booking whose hold expired at time 100
sits in the store; verifyPayment with a valid signature is nevertheless
answered 200 success — the call is accepted, not rejected, because the
handler evaluates no expiry guard (it never reads the store at all). -/
theorem verifyPayment_expired_accept_cex :
    verifyPayment demoHmac "sec"
        ⟨some "O1", some "P1", some (demoHmac "sec" "O1|P1"), some "B1"⟩
        [(⟨"B1", "pending", some "O1", none, 100⟩ : SBooking)]
      = (⟨200, true, some "Payment verified successfully", some "B1", some "P1"⟩,
         [(⟨"B1", "pending", some "O1", none, 100⟩ : SBooking)]) := by
  rfl

/-- C3 amended: verifyPayment contains no expiry guard and no store
access of any kind: it returns the booking store unchanged on every path
(so it never transitions an expired booking to confirmed, but only
because it transitions nothing), and a call with a valid signature is
accepted with 200 success regardless of holdExpiresAt. -/
theorem verifyPayment_no_expiry_guard {σ : Type} (hmac : String → String → String)
    (secret : String) (req : VerifyReq) (store : σ) :
    (verifyPayment hmac secret req store).2 = store
    ∧ ∀ o p, req.razorpay_order_id = some o → req.razorpay_payment_id = some p →
      o.isEmpty = false → p.isEmpty = false →
      req.razorpay_signature = some (hmac secret (o ++ "|" ++ p)) →
      (hmac secret (o ++ "|" ++ p)).isEmpty = false →
      (verifyPayment hmac secret req store).1
        = ⟨200, true, some "Payment verified successfully", req.bookingId, some p⟩ := by
  constructor
  · unfold verifyPayment
    split
    · rfl
    · dsimp only
      split <;> rfl
  · intro o p ho hp hoe hpe hsig hne
    simp [verifyPayment, strTruthy, ho, hp, hsig, hoe, hpe, hne]

/-- C3 witness: the amended theorem applied with a concrete hmac to a
store holding a booking expired at time 100. -/
theorem verifyPayment_no_expiry_guard_witness :
    (verifyPayment demoHmac "sec"
        ⟨some "O1", some "P1", some (demoHmac "sec" "O1|P1"), some "B1"⟩
        [(⟨"B1", "pending", some "O1", none, 100⟩ : SBooking)]).2
      = [(⟨"B1", "pending", some "O1", none, 100⟩ : SBooking)]
    ∧ (verifyPayment demoHmac "sec"
        ⟨some "O1", some "P1", some (demoHmac "sec" "O1|P1"), some "B1"⟩
        [(⟨"B1", "pending", some "O1", none, 100⟩ : SBooking)]).1
      = ⟨200, true, some "Payment verified successfully", some "B1", some "P1"⟩ :=
  ⟨(verifyPayment_no_expiry_guard demoHmac "sec"
      ⟨some "O1", some "P1", some (demoHmac "sec" "O1|P1"), some "B1"⟩
      [(⟨"B1", "pending", some "O1", none, 100⟩ : SBooking)]).1,
   (verifyPayment_no_expiry_guard demoHmac "sec"
      ⟨some "O1", some "P1", some (demoHmac "sec" "O1|P1"), some "B1"⟩
      [(⟨"B1", "pending", some "O1", none, 100⟩ : SBooking)]).2
     "O1" "P1" rfl rfl rfl rfl rfl rfl⟩

/-- C5: verifyPayment with any invalid signature — tampered or malformed,
anything differing from the recomputed HMAC — answers the one fixed 400
response with success false, and the booking store of any type passes
through unchanged, so a pending booking remains pending; the comparison
is a total boolean equality, never an exception. -/
theorem verifyPayment_invalid_signature_rejected {σ : Type}
    (hmac : String → String → String) (secret : String)
    (o p s : String) (bid : Option String) (store : σ)
    (ho : o.isEmpty = false) (hp : p.isEmpty = false) (hs : s.isEmpty = false)
    (hbad : s ≠ hmac secret (o ++ "|" ++ p)) :
    verifyPayment hmac secret ⟨some o, some p, some s, bid⟩ store
      = (invalidSignatureResp, store) := by
  simp [verifyPayment, strTruthy, ho, hp, hs, hbad]

/-- C5 witness: a malformed signature on a store holding the pending
booking B1, rejected with the fixed invalid-signature response and the
booking untouched. -/
theorem verifyPayment_invalid_signature_rejected_witness :
    verifyPayment demoHmac "sec" ⟨some "O1", some "P1", some "deadbeef", some "B1"⟩
        [(⟨"B1", "pending", some "O1", none, 100⟩ : SBooking)]
      = (invalidSignatureResp, [(⟨"B1", "pending", some "O1", none, 100⟩ : SBooking)]) :=
  verifyPayment_invalid_signature_rejected demoHmac "sec" "O1" "P1" "deadbeef"
    (some "B1") [(⟨"B1", "pending", some "O1", none, 100⟩ : SBooking)]
    rfl rfl rfl (by decide)

/-- C6 failing-input evaluation: a pending booking B2 whose stored
gatewayOrderId matches the presented order id, with a valid HMAC over
order id | payment id, is answered 200 success — yet the store is
returned unchanged: the state stays pending and gatewayPaymentId stays
none, where the claim (and the handler's own header comment and
commented-out Booking.findByIdAndUpdate block) require confirmed with
gatewayPaymentId P2. -/
theorem verifyPayment_no_confirm_eval :
    verifyPayment demoHmac "sec"
        ⟨some "O2", some "P2", some (demoHmac "sec" "O2|P2"), some "B2"⟩
        [(⟨"B2", "pending", some "O2", none, 999999⟩ : SBooking)]
      = (⟨200, true, some "Payment verified successfully", some "B2", some "P2"⟩,
         [(⟨"B2", "pending", some "O2", none, 999999⟩ : SBooking)]) := by
  rfl

/-- C4 counterexample: a single valid delivery (N = 1) of a
payment.captured webhook over a store holding the pending booking B1 is
acknowledged but performs zero state transitions — the store comes back
unchanged — where the claim requires exactly one transition. -/
theorem handleWebhook_no_transition_cex :
    handleWebhook demoHmac (fun r => r.event ++ ":" ++ r.payloadEntityId) "ws"
        (some (demoHmac "ws" "payment.captured:pay_1"))
        ⟨"payment.captured", "pay_1", some "evt_1"⟩
        [(⟨"B1", "pending", some "O1", none, 100⟩ : SBooking)]
      = (webhookAck, [(⟨"B1", "pending", some "O1", none, 100⟩ : SBooking)]) := by
  rfl

/-- C4 amended: handleWebhook never touches the booking store (any header
signature, any store type), and N validly-signed deliveries of one
webhook — the gateway event id being carried but never read — produce
exactly N acknowledgements and zero state transitions; no WebhookEvent
record or processedAt mark exists to deduplicate on. -/
theorem handleWebhook_ack_no_effect {σ : Type} (hmac : String → String → String)
    (serialize : WebhookReq → String) (secret : String) (hs : Option String)
    (req : WebhookReq) (n : Nat) (store : σ) :
    (handleWebhook hmac serialize secret hs req store).2 = store
    ∧ deliverTimes hmac serialize secret (some (hmac secret (serialize req))) req n store
        = (List.replicate n webhookAck, store) := by
  constructor
  · unfold handleWebhook
    dsimp only
    split <;> rfl
  · induction n with
    | zero => rfl
    | succ m ih => simp [deliverTimes, handleWebhook, ih, List.replicate]

end EventApp
